import Mathlib

/-!
Verification of the deployment orchestration of the cognito-login repository and
front-end form validation, as a shallow embedding in Lean 4.

The embedding covers:
* `SignUpForm`: the `validateForm`/`handleSubmit` logic of the SignUp component;
* `DeployScript`: the CloudFormation deployment shell script
  (`infrastructure/cloudformation/deploy-cloudformation.sh`);
* `DestroyScript`: the stack-deletion shell script;
* `CredentialMgr`, `Prober`, `Controller`, `Reporter`: the credential manager,
  resource prober, stack lifecycle controller and outcome reporter of the
  enhanced deployment script documented in the repository README.
-/

namespace CognitoLogin

/-! ## Character classes used by the SignUp form validation -/

/-- ASCII fragment of the JavaScript regular-expression whitespace class `\s`,
as used by the email pattern in `SignUp.tsx`. -/
def isJsSpace (c : Char) : Bool :=
  c = ' ' || c = '\t' || c = '\n' || c = '\r' || c = Char.ofNat 11 || c = Char.ofNat 12

/-- Character accepted by the class `[^\s@]` of the email pattern
`^[^\s@]+@[^\s@]+\.[^\s@]+$` in `SignUp.tsx`. -/
def emailChar (c : Char) : Bool := !isJsSpace c && c != '@'

/-- Special characters accepted by the password rule `(?=.*[!@#$%^&*])`
in `SignUp.tsx`. -/
def specialChar (c : Char) : Bool :=
  c = '!' || c = '@' || c = '#' || c = '$' || c = '%' || c = '^' || c = '&' || c = '*'

/-- JavaScript `String.prototype.trim`, restricted to the ASCII whitespace
characters of `isJsSpace`. -/
def jsTrim (s : List Char) : List Char :=
  ((s.dropWhile isJsSpace).reverse.dropWhile isJsSpace).reverse

/-- Whether the portion after the `@` sign contains a dot that is neither its
first nor its last character: the shape required by `[^\s@]+\.[^\s@]+`. -/
def hasInteriorDot (b : List Char) : Bool := ((b.drop 1).dropLast).contains '.'

/-- Executable full-match test for the email pattern
`^[^\s@]+@[^\s@]+\.[^\s@]+$` of `SignUp.tsx`: the string splits at its single
`@` into a nonempty `[^\s@]+` part and a nonempty remainder made of `[^\s@]`
characters containing an interior dot. -/
def emailTest (s : List Char) : Bool :=
  match s.dropWhile (fun c => c != '@') with
  | [] => false
  | _ :: b =>
    !(s.takeWhile (fun c => c != '@')).isEmpty &&
    (s.takeWhile (fun c => c != '@')).all emailChar &&
    !b.isEmpty && b.all emailChar && hasInteriorDot b

/-- Semantics of the email pattern `^[^\s@]+@[^\s@]+\.[^\s@]+$`: the string
decomposes as `p1 ++ "@" ++ p2 ++ "." ++ p3` with `p1`, `p2`, `p3` nonempty
and drawn from `[^\s@]`. -/
def ValidEmail (s : List Char) : Prop :=
  ∃ p1 p2 p3 : List Char,
    s = p1 ++ '@' :: (p2 ++ '.' :: p3) ∧
    p1 ≠ [] ∧ p2 ≠ [] ∧ p3 ≠ [] ∧
    (∀ c ∈ p1, emailChar c = true) ∧
    (∀ c ∈ p2, emailChar c = true) ∧
    (∀ c ∈ p3, emailChar c = true)

/-! Auxiliary list lemmas for the email-pattern equivalence. -/

theorem dropWhile_head_false {α : Type} {p : α → Bool} :
    ∀ {l : List α} {c : α} {t : List α}, l.dropWhile p = c :: t → p c = false := by
  intro l
  induction l with
  | nil => intro c t h; simp [List.dropWhile] at h
  | cons x xs ih =>
    intro c t h
    by_cases hx : p x = true
    · exact ih (by simpa [List.dropWhile_cons, hx] using h)
    · have hx2 : p x = false := by simpa using hx
      rw [List.dropWhile_cons, hx2] at h
      simp only [Bool.false_eq_true, if_false] at h
      injection h with h1 h2
      exact h1 ▸ hx2

theorem takeWhile_append_all {α : Type} {p : α → Bool} :
    ∀ (l : List α) (c : α) (r : List α), (∀ x ∈ l, p x = true) → p c = false →
      (l ++ c :: r).takeWhile p = l ∧ (l ++ c :: r).dropWhile p = c :: r := by
  intro l
  induction l with
  | nil =>
    intro c r _ hc
    constructor <;> simp [List.takeWhile, List.dropWhile, hc]
  | cons x xs ih =>
    intro c r hall hc
    have hx : p x = true := hall x (by simp)
    have hrec := ih c r (fun y hy => hall y (by simp [hy])) hc
    constructor
    · simp [List.takeWhile, hx, hrec.1]
    · simp [List.dropWhile, hx, hrec.2]

theorem emailTest_eq_true_iff (s : List Char) : emailTest s = true ↔ ValidEmail s := by
  constructor
  · intro h
    unfold emailTest at h
    cases hd : s.dropWhile (fun c => c != '@') with
    | nil => rw [hd] at h; simp at h
    | cons x b =>
      rw [hd] at h
      simp only [Bool.and_eq_true] at h
      obtain ⟨⟨⟨⟨h1, h2⟩, h3⟩, h4⟩, h5⟩ := h
      have hx : x = '@' := by
        have hx0 := dropWhile_head_false (p := fun c => c != '@') hd
        simpa using hx0
      have hs : s = s.takeWhile (fun c => c != '@') ++ '@' :: b := by
        conv_lhs => rw [← List.takeWhile_append_dropWhile (fun c => c != '@') s]
        rw [hd, hx]
      cases b with
      | nil => simp at h3
      | cons b0 b1 =>
        have hdot : ('.' : Char) ∈ b1.dropLast := by
          have h5b := h5
          unfold hasInteriorDot at h5b
          simpa using h5b
        have hb1ne : b1 ≠ [] := by
          intro he
          rw [he] at hdot
          simp at hdot
        obtain ⟨l, r, hlr⟩ := List.append_of_mem hdot
        have hb1 : b1 = l ++ '.' :: (r ++ [b1.getLast hb1ne]) := by
          conv_lhs => rw [← List.dropLast_append_getLast hb1ne]
          rw [hlr]
          simp
        have hmemb : ∀ c ∈ (b0 :: b1), emailChar c = true :=
          List.all_eq_true.mp h4
        refine ⟨s.takeWhile (fun c => c != '@'), b0 :: l, r ++ [b1.getLast hb1ne],
          ?_, ?_, ?_, ?_, ?_, ?_, ?_⟩
        · have ht : (b0 :: b1 : List Char) = (b0 :: l) ++ '.' :: (r ++ [b1.getLast hb1ne]) := by
            rw [List.cons_append]
            exact congrArg (List.cons b0) hb1
          conv_lhs => rw [hs]
          rw [ht]
        · intro he
          rw [he] at h1
          simp at h1
        · simp
        · simp
        · exact List.all_eq_true.mp h2
        · intro c hc
          rcases List.mem_cons.mp hc with hc0 | hcl
          · exact hmemb c (by simp [hc0])
          · have : c ∈ b1 := List.dropLast_subset b1 (hlr ▸ List.mem_append_left _ hcl)
            exact hmemb c (by simp [this])
        · intro c hc
          rcases List.mem_append.mp hc with hcr | hcz
          · have : c ∈ b1 := List.dropLast_subset b1
              (hlr ▸ List.mem_append_right _ (List.mem_cons_of_mem _ hcr))
            exact hmemb c (by simp [this])
          · have hz : c = b1.getLast hb1ne := by simpa using hcz
            have : c ∈ b1 := hz ▸ List.getLast_mem hb1ne
            exact hmemb c (by simp [this])
  · rintro ⟨p1, p2, p3, hs, h1, h2, h3, hall1, hall2, hall3⟩
    have hne : ∀ x ∈ p1, (x != '@') = true := by
      intro x hx
      have := hall1 x hx
      unfold emailChar at this
      simp only [Bool.and_eq_true] at this
      exact this.2
    have hsplit := takeWhile_append_all (p := fun c => c != '@') p1 '@'
      (p2 ++ '.' :: p3) hne (by simp)
    unfold emailTest
    rw [hs, hsplit.2]
    simp only [hsplit.1]
    have hBall : (p2 ++ '.' :: p3).all emailChar = true := by
      rw [List.all_eq_true]
      intro c hc
      rcases List.mem_append.mp hc with hc2 | hc3
      · exact hall2 c hc2
      · rcases List.mem_cons.mp hc3 with hcd | hcp
        · rw [hcd]; rfl
        · exact hall3 c hcp
    have hBdot : hasInteriorDot (p2 ++ '.' :: p3) = true := by
      unfold hasInteriorDot
      cases p2 with
      | nil => exact absurd rfl h2
      | cons q0 q =>
        have hdrop : ((q0 :: q ++ '.' :: p3).drop 1) = (q ++ ['.']) ++ p3 := by
          simp
        rw [hdrop, List.dropLast_append_of_ne_nil _ h3]
        simp
    simp [hBall, hBdot, Bool.and_eq_true]
    constructor
    · intro he
      exact h1 (by simpa using he)
    · exact hall1

/-! ## Form state and validation of the SignUp component (SignUp.tsx) -/

/-- The `formData` state of the SignUp component. -/
structure FormData where
  firstName : String
  lastName : String
  email : String
  password : String
  confirmPassword : String

/-- The `validateForm` function of `SignUp.tsx`, returning the boolean result
together with the error message passed to `setError` (empty when valid).
The checks appear in the source order. -/
def validateForm (f : FormData) : Bool × String :=
  if (jsTrim f.firstName.data).isEmpty then
    (false, "First name is required")
  else if (jsTrim f.lastName.data).isEmpty then
    (false, "Last name is required")
  else if (jsTrim f.email.data).isEmpty then
    (false, "Email is required")
  else if !emailTest f.email.data then
    (false, "Please enter a valid email address")
  else if f.password.length < 8 then
    (false, "Password must be at least 8 characters long")
  else if !f.password.data.any (fun c => c.isLower) then
    (false, "Password must contain at least one lowercase letter")
  else if !f.password.data.any (fun c => c.isUpper) then
    (false, "Password must contain at least one uppercase letter")
  else if !f.password.data.any (fun c => c.isDigit) then
    (false, "Password must contain at least one number")
  else if !f.password.data.any specialChar then
    (false, "Password must contain at least one special character (!@#$%^&*)")
  else if f.password != f.confirmPassword then
    (false, "Passwords do not match")
  else
    (true, "")

/-- Observable outcome of `handleSubmit` in `SignUp.tsx`: whether the Amplify
`signUp` call was issued and the error message shown to the user. -/
structure SubmitOutcome where
  signUpCalled : Bool
  errorMessage : String

/-- The validation gate of `handleSubmit` in `SignUp.tsx`: when
`validateForm` returns false the handler returns early with the error set and
never reaches the `signUp` call. -/
def handleSubmit (f : FormData) : SubmitOutcome :=
  match validateForm f with
  | (false, msg) => { signUpCalled := false, errorMessage := msg }
  | (true, _) => { signUpCalled := true, errorMessage := "" }

/-- The conditions of claim C9, stated declaratively: all three name/email
fields non-blank after trimming, the email matches the pattern, the password
satisfies the five rules, and the two password fields agree. -/
def FormValid (f : FormData) : Prop :=
  jsTrim f.firstName.data ≠ [] ∧
  jsTrim f.lastName.data ≠ [] ∧
  jsTrim f.email.data ≠ [] ∧
  ValidEmail f.email.data ∧
  8 ≤ f.password.length ∧
  (∃ c ∈ f.password.data, c.isLower = true) ∧
  (∃ c ∈ f.password.data, c.isUpper = true) ∧
  (∃ c ∈ f.password.data, c.isDigit = true) ∧
  (∃ c ∈ f.password.data, specialChar c = true) ∧
  f.password = f.confirmPassword

theorem validateForm_fst (f : FormData) : (validateForm f).1 =
    (!(jsTrim f.firstName.data).isEmpty &&
     !(jsTrim f.lastName.data).isEmpty &&
     !(jsTrim f.email.data).isEmpty &&
     emailTest f.email.data &&
     !decide (f.password.length < 8) &&
     f.password.data.any (fun c => c.isLower) &&
     f.password.data.any (fun c => c.isUpper) &&
     f.password.data.any (fun c => c.isDigit) &&
     f.password.data.any specialChar &&
     !(f.password != f.confirmPassword)) := by
  unfold validateForm
  repeat' split
  all_goals simp_all

theorem validateForm_fst_iff (f : FormData) :
    (validateForm f).1 = true ↔ FormValid f := by
  rw [validateForm_fst]
  unfold FormValid
  simp only [Bool.and_eq_true, Bool.not_eq_true', List.isEmpty_eq_false,
    List.any_eq_true, decide_eq_false_iff_not, Nat.not_lt, bne_eq_false_iff_eq,
    emailTest_eq_true_iff]
  tauto

theorem validateForm_error_of_false (f : FormData) :
    (validateForm f).1 = false → (validateForm f).2 ≠ "" := by
  unfold validateForm
  repeat' split
  all_goals intro h
  all_goals first
    | exact Bool.noConfusion h
    | decide

theorem handleSubmit_of_invalid (f : FormData) (h : (validateForm f).1 = false) :
    (handleSubmit f).signUpCalled = false ∧ (handleSubmit f).errorMessage ≠ "" := by
  have hmsg := validateForm_error_of_false f h
  unfold handleSubmit
  cases hv : validateForm f with
  | mk b msg =>
    rw [hv] at h hmsg
    simp only at h
    subst h
    exact ⟨rfl, hmsg⟩

/-- Claim C9: the `validateForm` function of SignUp returns true exactly when firstName,
lastName and email are non-blank after trimming, the email matches
`^[^\s@]+@[^\s@]+\.[^\s@]+$`, the password is at least 8 characters long with
at least one lowercase letter, one uppercase letter, one digit and one
character of `!@#$%^&*`, and password equals confirmPassword; and whenever it
returns false, `handleSubmit` sets a non-empty error message and issues no
`signUp` call. -/
theorem claim_C9_signup_validation (f : FormData) :
    ((validateForm f).1 = true ↔ FormValid f) ∧
    ((validateForm f).1 = false →
      (handleSubmit f).signUpCalled = false ∧ (handleSubmit f).errorMessage ≠ "") :=
  ⟨validateForm_fst_iff f, handleSubmit_of_invalid f⟩

/-- Concrete form with a blank first name used to discharge the hypothesis of
the gating conjunct of claim C9. -/
def invalidForm : FormData :=
  { firstName := ""
    lastName := "Doe"
    email := "jane@example.com"
    password := "Passw0rd!"
    confirmPassword := "Passw0rd!" }

theorem claim_C9_signup_validation_witness :
    (handleSubmit invalidForm).signUpCalled = false ∧
    (handleSubmit invalidForm).errorMessage ≠ "" :=
  (claim_C9_signup_validation invalidForm).2 rfl

/-! ## The CloudFormation deployment script
(`infrastructure/cloudformation/deploy-cloudformation.sh`)

The script is modelled as a function from the environment (what the AWS
control plane answers) to the list of observable actions it issues plus its
exit code, respecting `set -e`: the first failing command aborts the run. -/

namespace DeployScript

/-- Observable actions of `deploy-cloudformation.sh`, in script order. -/
inductive Ev where
  | validateTemplate
  | describeStacks
  | createChangeSet
  | waitChangeSetCreate
  | executeChangeSet
  | waitStackUpdate
  | createStack
  | waitStackCreate
  | getOutput (key : String) (value : String)
  | writeEnvFile (poolId clientId region : String)
  | npmInstall
  | npmBuild
  | uploadLongCache (bucket file : String)
  | uploadNoCache (bucket file : String)
  | createInvalidation (dist : String)
  | waitInvalidation (dist : String)
  deriving DecidableEq, Repr

/-- Control-plane responses for one run of the script. -/
structure Env where
  stackExists : Bool
  templateDiffers : Bool
  stackOpSucceeds : Bool
  outputs : List (String × String)
  region : String
  buildFiles : List String

/-- Value of one stack output as retrieved by
`--query Stacks[0].Outputs[?OutputKey==KEY].OutputValue --output text`:
the output value when the key is present, the empty string otherwise. -/
def getOutputVal (outs : List (String × String)) (key : String) : String :=
  (outs.lookup key).getD ""

/-- The `--exclude` arguments of the `aws s3 sync` call in Step 7. -/
def syncExcludes : List String :=
  ["index.html", "asset-manifest.json", "service-worker.js"]

/-- Step 7 of the script: `aws s3 sync` uploads every build file not excluded
with `--cache-control "public, max-age=31536000"`, then a single `aws s3 cp`
uploads `index.html` with `--cache-control "no-cache, no-store,
must-revalidate"`. No other copy command follows. -/
def step7Uploads (bucket : String) (files : List String) : List Ev :=
  (files.filter (fun f => !syncExcludes.contains f)).map (Ev.uploadLongCache bucket) ++
  [Ev.uploadNoCache bucket "index.html"]

/-- Steps 3 through 8 of the script: retrieve the five outputs (no check that
any of them is non-empty), write `frontend/.env.production`, install and
build the frontend, upload it, and invalidate the distribution. An empty
bucket name or distribution id makes the corresponding AWS command fail,
aborting the run under `set -e`. -/
def steps3to8 (env : Env) : List Ev × Nat :=
  let pool := getOutputVal env.outputs "UserPoolId"
  let client := getOutputVal env.outputs "UserPoolClientId"
  let bucket := getOutputVal env.outputs "WebsiteBucketName"
  let dist := getOutputVal env.outputs "CloudFrontDistributionId"
  let url := getOutputVal env.outputs "WebsiteURL"
  let evs := [Ev.getOutput "UserPoolId" pool, Ev.getOutput "UserPoolClientId" client,
    Ev.getOutput "WebsiteBucketName" bucket, Ev.getOutput "CloudFrontDistributionId" dist,
    Ev.getOutput "WebsiteURL" url,
    Ev.writeEnvFile pool client env.region, Ev.npmInstall, Ev.npmBuild]
  if bucket = "" then (evs, 1)
  else if dist = "" then (evs ++ step7Uploads bucket env.buildFiles, 1)
  else (evs ++ step7Uploads bucket env.buildFiles ++
    [Ev.createInvalidation dist, Ev.waitInvalidation dist], 0)

/-- Whole run of `deploy-cloudformation.sh`. On the update path the script
issues `create-change-set` and then `wait change-set-create-complete`; when
the template contains no changes the change set reaches FAILED ("The
submitted information did not contain changes), the waiter exits non-zero and
`set -e` aborts the script before `execute-change-set`. -/
def runDeploy (env : Env) : List Ev × Nat :=
  let pre := [Ev.validateTemplate, Ev.describeStacks]
  if env.stackExists then
    if env.templateDiffers then
      if env.stackOpSucceeds then
        let tail := steps3to8 env
        (pre ++ [Ev.createChangeSet, Ev.waitChangeSetCreate, Ev.executeChangeSet,
          Ev.waitStackUpdate] ++ tail.1, tail.2)
      else
        (pre ++ [Ev.createChangeSet, Ev.waitChangeSetCreate, Ev.executeChangeSet,
          Ev.waitStackUpdate], 255)
    else
      (pre ++ [Ev.createChangeSet, Ev.waitChangeSetCreate], 255)
  else
    if env.stackOpSucceeds then
      let tail := steps3to8 env
      (pre ++ [Ev.createStack, Ev.waitStackCreate] ++ tail.1, tail.2)
    else
      (pre ++ [Ev.createStack, Ev.waitStackCreate], 255)

/-- Uploads of a given file occurring in a trace. -/
def uploadsOf (tr : List Ev) (file : String) : List Ev :=
  tr.filter (fun e => match e with
    | Ev.uploadLongCache _ f => f = file
    | Ev.uploadNoCache _ f => f = file
    | _ => false)

/-- A run publishing a build directory that contains `index.html`, `main.js`
and the service-worker file `service-worker.js`, with all five stack outputs
present. -/
def publishEnv : Env :=
  { stackExists := false, templateDiffers := true, stackOpSucceeds := true,
    outputs := [("UserPoolId", "us-east-1_POOL"), ("UserPoolClientId", "client123"),
      ("WebsiteBucketName", "cognito-login-bucket"),
      ("CloudFrontDistributionId", "EDIST123"),
      ("WebsiteURL", "https://dxyz.cloudfront.net")],
    region := "us-east-1",
    buildFiles := ["index.html", "main.js", "service-worker.js"] }

/-- Claim C2 (divergence): on a build directory with `index.html`, `main.js`
and `service-worker.js`, the script issues exactly one no-cache upload for
`index.html` (after the long-cache uploads), but issues no upload at all for
`service-worker.js`: the file is excluded from the long-cache sync and, in
divergence from the comment in the script, Upload index.html and
service-worker.js with no cache", never uploaded. -/
theorem claim_C2_service_worker_never_uploaded :
    uploadsOf (runDeploy publishEnv).1 "service-worker.js" = [] ∧
    uploadsOf (runDeploy publishEnv).1 "index.html" =
      [Ev.uploadNoCache "cognito-login-bucket" "index.html"] ∧
    uploadsOf (runDeploy publishEnv).1 "main.js" =
      [Ev.uploadLongCache "cognito-login-bucket" "main.js"] := by
  decide

/-- A run against an existing stack whose deployed template is identical to
the submitted one: the change set contains no changes. -/
def noChangeEnv : Env :=
  { stackExists := true, templateDiffers := false, stackOpSucceeds := true,
    outputs := [("UserPoolId", "us-east-1_POOL"), ("UserPoolClientId", "client123"),
      ("WebsiteBucketName", "cognito-login-bucket"),
      ("CloudFrontDistributionId", "EDIST123"),
      ("WebsiteURL", "https://dxyz.cloudfront.net")],
    region := "us-east-1",
    buildFiles := ["index.html", "main.js"] }

/-- Claim C3 (divergence): when an update is requested with a template
identical to the deployed one, the "no updates to perform" condition is not
caught: the change-set waiter fails and `set -e` aborts the script with a
non-zero exit before the change set is executed and before any frontend step;
the run does not terminate as a no-op success. -/
theorem claim_C3_no_change_update_aborts :
    (runDeploy noChangeEnv).2 = 255 ∧
    Ev.executeChangeSet ∉ (runDeploy noChangeEnv).1 ∧
    Ev.npmBuild ∉ (runDeploy noChangeEnv).1 := by
  decide

/-- A successful stack deployment whose outputs are missing the required key
`UserPoolId`. -/
def missingOutputEnv : Env :=
  { stackExists := false, templateDiffers := true, stackOpSucceeds := true,
    outputs := [("UserPoolClientId", "client123"),
      ("WebsiteBucketName", "cognito-login-bucket"),
      ("CloudFrontDistributionId", "EDIST123"),
      ("WebsiteURL", "https://dxyz.cloudfront.net")],
    region := "us-east-1",
    buildFiles := ["index.html", "main.js"] }

/-- Counterexample to claim C7: with the required output key `UserPoolId`
missing, the run does not fail before building — it writes the frontend
environment file with an empty pool id, builds, publishes, and exits 0. -/
theorem claim_C7_counterexample :
    (runDeploy missingOutputEnv).2 = 0 ∧
    Ev.npmBuild ∈ (runDeploy missingOutputEnv).1 ∧
    Ev.writeEnvFile "" "client123" "us-east-1" ∈ (runDeploy missingOutputEnv).1 := by
  decide

/-- Claim C7 as amended: the script extracts the output keys without checking
them; a missing required key yields an empty string and the run proceeds to
configure and build the frontend with that empty value rather than failing
fatally before the build. -/
theorem claim_C7_amended_no_missing_key_check (env : Env)
    (h1 : env.stackExists = false) (h2 : env.stackOpSucceeds = true)
    (h3 : env.outputs.lookup "UserPoolId" = none) :
    Ev.npmBuild ∈ (runDeploy env).1 ∧
    Ev.writeEnvFile "" (getOutputVal env.outputs "UserPoolClientId") env.region ∈
      (runDeploy env).1 := by
  have hpool : getOutputVal env.outputs "UserPoolId" = "" := by
    unfold getOutputVal
    rw [h3]
    rfl
  simp only [runDeploy, steps3to8, h1, h2, hpool, Bool.false_eq_true, if_false, if_true]
  constructor <;> (repeat' split) <;> simp

theorem claim_C7_amended_no_missing_key_check_witness :
    Ev.npmBuild ∈ (runDeploy missingOutputEnv).1 ∧
    Ev.writeEnvFile "" (getOutputVal missingOutputEnv.outputs "UserPoolClientId")
      missingOutputEnv.region ∈ (runDeploy missingOutputEnv).1 :=
  claim_C7_amended_no_missing_key_check missingOutputEnv rfl rfl rfl

end DeployScript

/-! ## The stack-deletion script (destroy-cloudformation.sh) -/

namespace DestroyScript

/-- Observable actions of the stack-deletion script, in script order. -/
inductive DEv where
  | describeBucketName
  | s3RemoveRecursive (bucket : String)
  | deleteStack
  | waitDeleteComplete
  deriving DecidableEq

/-- Whether an action issues a mutating call to a remote service; the
describe query is a read. -/
def isMutating : DEv → Bool
  | DEv.describeBucketName => false
  | _ => true

/-- The confirmation check `[[ $REPLY =~ ^[Yy][Ee][Ss]$ ]]`: exactly the
three letters of "yes", each matched case-insensitively. -/
def yesMatch (r : String) : Bool :=
  match r.data with
  | [a, b, c] => (a = 'Y' || a = 'y') && (b = 'E' || b = 'e') && (c = 'S' || c = 's')
  | _ => false

/-- The stack-deletion script: a reply not matching the pattern prints
"Deletion cancelled." and exits 0 before any AWS call; otherwise the script
retrieves the website bucket name (empty string when the describe fails),
empties the bucket when the name is non-empty, issues `delete-stack` and
blocks on `wait stack-delete-complete`. -/
def runDestroy (reply : String) (bucketLookup : Option String) : List DEv × Nat :=
  if !yesMatch reply then ([], 0)
  else
    let bn := bucketLookup.getD ""
    (DEv.describeBucketName ::
      ((if bn ≠ "" then [DEv.s3RemoveRecursive bn] else []) ++
       [DEv.deleteStack, DEv.waitDeleteComplete]), 0)

/-- Claim C10: a reply that is not "yes" (case-insensitively per letter)
exits with code 0 having issued no remote mutating call; a "yes" reply, in a
run where the bucket name is retrievable, produces exactly the trace that
empties the website bucket before `delete-stack` is issued and ends blocking
on `wait stack-delete-complete`. -/
theorem claim_C10_destroy_confirmation (reply : String) (bucketLookup : Option String) :
    (yesMatch reply = false →
      (runDestroy reply bucketLookup).2 = 0 ∧
      ∀ e ∈ (runDestroy reply bucketLookup).1, isMutating e = false) ∧
    (yesMatch reply = true → ∀ b : String, bucketLookup = some b → b ≠ "" →
      (runDestroy reply bucketLookup).1 =
        [DEv.describeBucketName, DEv.s3RemoveRecursive b, DEv.deleteStack,
         DEv.waitDeleteComplete]) := by
  constructor
  · intro h
    simp [runDestroy, h]
  · intro h b hb hbne
    simp [runDestroy, h, hb, hbne]

theorem claim_C10_destroy_confirmation_witness :
    ((runDestroy "no" (some "cognito-login-bucket")).2 = 0 ∧
      ∀ e ∈ (runDestroy "no" (some "cognito-login-bucket")).1, isMutating e = false) ∧
    (runDestroy "YES" (some "cognito-login-bucket")).1 =
      [DEv.describeBucketName, DEv.s3RemoveRecursive "cognito-login-bucket",
       DEv.deleteStack, DEv.waitDeleteComplete] :=
  ⟨(claim_C10_destroy_confirmation "no" (some "cognito-login-bucket")).1 rfl,
   (claim_C10_destroy_confirmation "YES" (some "cognito-login-bucket")).2 rfl
     "cognito-login-bucket" rfl (by decide)⟩

end DestroyScript

/-! ## The Credential Manager of the enhanced deployment script

The enhanced script itself is not among the sources; its API-key handling is
modelled from the specification and the repository README ("Checks Parameter
Store for existing API keys; reuses existing keys; auto-generates secure
32-character alphanumeric keys when needed; stores keys securely"). -/

namespace CredentialMgr

/-- A secret store keyed by parameter path (AWS SSM Parameter Store). -/
structure Store where
  entries : List (String × String)
  deriving DecidableEq

/-- Read of a parameter path: the stored value or not-found. -/
def readParam (st : Store) (path : String) : Option String :=
  st.entries.lookup path

/-- Write of a parameter path. -/
def writeParam (st : Store) (path value : String) : Store :=
  ⟨(path, value) :: st.entries⟩

/-- Modelled from the spec: `ensureCredential(path, generator)` of the
Credential Manager, whose script is missing from the sources here. Per the
spec: an existing credential at `path` is returned unchanged regardless of
any generator or explicit credential supplied; otherwise an operator-supplied
credential is used verbatim after the 20-character minimum check (a
ValidationError if shorter), otherwise the generated one is used; a new
credential is persisted exactly once. -/
def ensureCredential (st : Store) (path : String) (explicit : Option String)
    (generated : String) : Except String (String × Store) :=
  match readParam st path with
  | some v => .ok (v, st)
  | none =>
    match explicit with
    | some e =>
      if 20 ≤ e.length then .ok (e, writeParam st path e)
      else .error "ValidationError: credential shorter than the 20-character minimum"
    | none => .ok (generated, writeParam st path generated)

theorem readParam_writeParam (st : Store) (path v : String) :
    readParam (writeParam st path v) path = some v := by
  simp [readParam, writeParam, List.lookup]

/-- Claim C1: an existing credential at the target path is returned exactly
and the store is left unchanged (no replacing write), regardless of the
generator or explicit credential supplied; and running the deployment twice
never rotates the credential: a second `ensureCredential` returns the first
credential of the first run and leaves the store of the first run unchanged. -/
theorem claim_C1_credential_reuse (st : Store) (path : String) :
    (∀ (explicit : Option String) (generated v : String),
      readParam st path = some v →
      ensureCredential st path explicit generated = .ok (v, st)) ∧
    (∀ (e1 : Option String) (g1 : String) (e2 : Option String) (g2 c : String)
      (st2 : Store),
      ensureCredential st path e1 g1 = .ok (c, st2) →
      ensureCredential st2 path e2 g2 = .ok (c, st2)) := by
  constructor
  · intro explicit generated v h
    unfold ensureCredential
    rw [h]
  · intro e1 g1 e2 g2 c st2 h1
    unfold ensureCredential at h1
    cases hr : readParam st path with
    | some v =>
      rw [hr] at h1
      simp only [Except.ok.injEq, Prod.mk.injEq] at h1
      obtain ⟨hc, hst⟩ := h1
      unfold ensureCredential
      rw [← hst, hr, hc]
    | none =>
      rw [hr] at h1
      cases e1 with
      | some e =>
        simp only at h1
        split at h1
        · simp only [Except.ok.injEq, Prod.mk.injEq] at h1
          obtain ⟨hc, hst⟩ := h1
          unfold ensureCredential
          rw [← hst, ← hc, readParam_writeParam]
        · exact absurd h1 (by simp)
      | none =>
        simp only [Except.ok.injEq, Prod.mk.injEq] at h1
        obtain ⟨hc, hst⟩ := h1
        unfold ensureCredential
        rw [← hst, ← hc, readParam_writeParam]

/-- Concrete store holding a credential, used to discharge the
hypotheses of claim C1. -/
def seededStore : Store :=
  ⟨[("/kiro/kiro-user-management-api/api-key", "ExistingKey123456789012345678901")]⟩

theorem claim_C1_credential_reuse_witness :
    ensureCredential seededStore "/kiro/kiro-user-management-api/api-key"
      (some "OperatorSuppliedKey99999999999999") "FreshlyGeneratedKey0000000000000" =
      .ok ("ExistingKey123456789012345678901", seededStore) :=
  (claim_C1_credential_reuse seededStore "/kiro/kiro-user-management-api/api-key").1
    (some "OperatorSuppliedKey99999999999999") "FreshlyGeneratedKey0000000000000"
    "ExistingKey123456789012345678901" rfl

/-- The 62 alphanumeric characters the generated key is drawn from. -/
def alphanumChars : List Char :=
  "ABCDEFGHIJKLMNOPQRSTUVWXYZabcdefghijklmnopqrstuvwxyz0123456789".data

/-- ASCII alphanumeric test. -/
def isAlphanum (c : Char) : Bool := c.isAlpha || c.isDigit

/-- The documented 20-character minimum of the credential policy. -/
def minCredentialLength : Nat := 20

/-- The policy check a credential must pass. -/
def meetsMinimumPolicy (s : String) : Bool := decide (minCredentialLength ≤ s.length)

/-- Modelled from the spec: the key generator of the enhanced deployment
script (missing from the sources here), which per the spec and README always
produces a 32-character alphanumeric key from a cryptographically strong
random source; the randomness is abstracted as a stream of indices into the
alphanumeric alphabet. -/
def generateKey (seed : Nat → Nat) : String :=
  ⟨(List.range 32).map (fun i => alphanumChars.getD (seed i % alphanumChars.length) 'A')⟩

theorem getD_mem_of_lt {α : Type} :
    ∀ (l : List α) (n : Nat) (d : α), n < l.length → l.getD n d ∈ l := by
  intro l
  induction l with
  | nil => intro n d h; simp at h
  | cons x xs ih =>
    intro n d h
    cases n with
    | zero => simp [List.getD]
    | succ m =>
      have hm : m < xs.length := by simpa using h
      have hrec := ih m d hm
      have hstep : (x :: xs).getD (m + 1) d = xs.getD m d := by
        simp [List.getD]
      rw [hstep]
      exact List.mem_cons_of_mem x hrec

/-- Claim C8: every generated credential has length at least 32 (in fact
exactly 32), consists only of alphanumeric characters, and passes the
20-character minimum policy check. -/
theorem claim_C8_generated_key_policy (seed : Nat → Nat) :
    32 ≤ (generateKey seed).length ∧
    (∀ c ∈ (generateKey seed).data, isAlphanum c = true) ∧
    meetsMinimumPolicy (generateKey seed) = true := by
  have hlen : (generateKey seed).length = 32 := by
    simp [generateKey, String.length]
  refine ⟨hlen.ge, ?_, ?_⟩
  · intro c hc
    have hc2 : c ∈ (List.range 32).map
        (fun i => alphanumChars.getD (seed i % alphanumChars.length) 'A') := hc
    obtain ⟨i, _, hci⟩ := List.mem_map.mp hc2
    have hlt : seed i % alphanumChars.length < alphanumChars.length :=
      Nat.mod_lt _ (by decide)
    have hmem : alphanumChars.getD (seed i % alphanumChars.length) 'A' ∈ alphanumChars :=
      getD_mem_of_lt alphanumChars _ 'A' hlt
    have hall : ∀ c2 ∈ alphanumChars, isAlphanum c2 = true := by decide
    exact hci ▸ hall _ hmem
  · simp [meetsMinimumPolicy, minCredentialLength, hlen]

end CredentialMgr

/-! ## Stack state classification and probing

The status lists follow the stack-state table of the repository README
(successful, failed and in-progress CloudFormation statuses); the probe
contract is modelled from the spec, the probing script being missing from
the sources here. -/

namespace Prober

/-- The four abstract stack states of the data model. -/
inductive StackState where
  | ABSENT
  | IN_PROGRESS
  | SUCCEEDED
  | FAILED
  deriving DecidableEq

/-- Successful CloudFormation statuses per the README table. -/
def successStatuses : List String := ["CREATE_COMPLETE", "UPDATE_COMPLETE"]

/-- Failed CloudFormation statuses per the README table. -/
def failedStatuses : List String :=
  ["CREATE_FAILED", "ROLLBACK_COMPLETE", "UPDATE_ROLLBACK_COMPLETE",
   "UPDATE_ROLLBACK_FAILED", "DELETE_FAILED"]

/-- In-progress CloudFormation statuses per the README table. -/
def inProgressStatuses : List String :=
  ["CREATE_IN_PROGRESS", "UPDATE_IN_PROGRESS", "DELETE_IN_PROGRESS"]

/-- Mapping of a raw status string to an abstract state; unrecognized
strings map to none. -/
def classifyStatus (s : String) : Option StackState :=
  if successStatuses.contains s then some .SUCCEEDED
  else if failedStatuses.contains s then some .FAILED
  else if inProgressStatuses.contains s then some .IN_PROGRESS
  else none

/-- Result of the describe call against the provisioning service. -/
inductive DescribeResult where
  | notFound
  | status (raw : String)

/-- Outcome of probing the stack. -/
inductive ProbeOutcome where
  | absent
  | state (st : StackState)
  | fatalConfigError (raw : String)
  deriving DecidableEq

/-- Modelled from the spec: the stack probe of the Resource Prober (the
probing script is missing from the sources here): an HTTP/not-found describe
error maps to Absent and an unrecognized status string maps to a fatal
configuration error. -/
def probeStack : DescribeResult → ProbeOutcome
  | .notFound => .absent
  | .status raw =>
    match classifyStatus raw with
    | some st => .state st
    | none => .fatalConfigError raw

/-- Claim C6: the probe maps a not-found describe error to Absent, maps every
unrecognized status string to a fatal configuration error, never classifies a
status string as Absent, and classifies a status as SUCCEEDED only for the
recognized success statuses. -/
theorem claim_C6_probe_classification :
    probeStack .notFound = .absent ∧
    (∀ raw, classifyStatus raw = none →
      probeStack (.status raw) = .fatalConfigError raw) ∧
    (∀ raw, probeStack (.status raw) ≠ .absent) ∧
    (∀ raw, probeStack (.status raw) = .state .SUCCEEDED → raw ∈ successStatuses) := by
  refine ⟨rfl, ?_, ?_, ?_⟩
  · intro raw h
    simp [probeStack, h]
  · intro raw
    cases h : classifyStatus raw <;> simp [probeStack, h]
  · intro raw h
    have h2 : (match classifyStatus raw with
        | some st => ProbeOutcome.state st
        | none => ProbeOutcome.fatalConfigError raw) =
        ProbeOutcome.state StackState.SUCCEEDED := h
    cases hc : classifyStatus raw with
    | none =>
      rw [hc] at h2
      exact absurd h2 (by simp)
    | some st =>
      rw [hc] at h2
      simp only [ProbeOutcome.state.injEq] at h2
      subst h2
      unfold classifyStatus at hc
      split at hc
      · next hmem => simpa using hmem
      · split at hc
        · simp at hc
        · split at hc <;> simp at hc

theorem claim_C6_probe_classification_witness :
    probeStack (.status "WEIRD_STATUS") = .fatalConfigError "WEIRD_STATUS" ∧
    "CREATE_COMPLETE" ∈ successStatuses :=
  ⟨claim_C6_probe_classification.2.1 "WEIRD_STATUS" rfl,
   claim_C6_probe_classification.2.2.2 "CREATE_COMPLETE" rfl⟩

end Prober

/-! ## The Stack Lifecycle Controller of the enhanced deployment script -/

namespace Controller

/-- Terminal outcome kind of one orchestrator run. -/
inductive OutcomeKind where
  | SUCCESS
  | FAILURE
  deriving DecidableEq

/-- Mutating stack operations the controller can issue. -/
inductive CtlCall where
  | createStack
  | updateStack
  | deleteStack
  deriving DecidableEq

/-- Terminal probe result the controller decides on (the controller polls
past IN_PROGRESS before deciding). -/
inductive ProbedState where
  | absent
  | succeeded
  | failed
  deriving DecidableEq

/-- Modelled from the spec: the decision logic of the Stack Lifecycle
Controller (the enhanced script is missing from the sources here). Absent
stacks are created; successful stacks are updated on confirmation and left
untouched (no-op success) on decline; failed stacks are deleted and recreated
on confirmation, and on decline the run terminates with FAILURE and no call;
force mode always chooses update-if-exists / create-if-absent.
`opSucceeds` abstracts whether the issued operation reaches SUCCEEDED. -/
def runController (probed : ProbedState) (force confirm opSucceeds : Bool) :
    OutcomeKind × List CtlCall :=
  match probed with
  | .absent =>
    (if opSucceeds then .SUCCESS else .FAILURE, [CtlCall.createStack])
  | .succeeded =>
    if force then (if opSucceeds then .SUCCESS else .FAILURE, [CtlCall.updateStack])
    else if confirm then (if opSucceeds then .SUCCESS else .FAILURE, [CtlCall.updateStack])
    else (.SUCCESS, [])
  | .failed =>
    if force then (if opSucceeds then .SUCCESS else .FAILURE, [CtlCall.updateStack])
    else if confirm then
      (if opSucceeds then .SUCCESS else .FAILURE,
       [CtlCall.deleteStack, CtlCall.createStack])
    else (.FAILURE, [])

/-- Claim C5: when the stack is observed FAILED and the operator declines the
recreate prompt, the run terminates with outcome kind FAILURE and no delete
call is ever issued. -/
theorem claim_C5_failed_decline (opSucceeds : Bool) :
    (runController .failed false false opSucceeds).1 = .FAILURE ∧
    CtlCall.deleteStack ∉ (runController .failed false false opSucceeds).2 := by
  constructor <;> simp [runController]

end Controller

/-! ## The Outcome Reporter of the enhanced deployment script

The final output is modelled from the "Deployment Output" example of the
repository README, which shows the credentials block printed on standard
output; the security section of the README states the key is never placed in
CloudFormation outputs or CloudWatch logs. -/

namespace Reporter

/-- Parameter Store path of the API key, from the README. -/
def apiKeyParamPath : String := "/kiro/kiro-user-management-api/api-key"

/-- Contiguous-substring test: whether `n` occurs inside the second list. -/
def containsSub : List Char → List Char → Bool
  | n, [] => n.isEmpty
  | n, h :: t => n.isPrefixOf (h :: t) || containsSub n t

/-- Whether a string occurs as a substring of one of the lines. -/
def appears (needle : String) (lines : List String) : Bool :=
  lines.any (fun l => containsSub needle.data l.data)

/-- Output channels of one deployment run. -/
structure Channels where
  stdoutLines : List String
  logLines : List String
  infraOutputs : List (String × String)

/-- The "=== API CREDENTIALS ===" block the script prints at the end of a
run, following the Deployment Output example of the README. -/
def credentialsSection (apiKey paramPath : String) : List String :=
  ["=== API CREDENTIALS ===",
   "API Key: " ++ apiKey,
   "Parameter Store Location: " ++ paramPath,
   "",
   "To retrieve your API key later:",
   "aws ssm get-parameter --name " ++ paramPath ++ " --with-decryption"]

/-- Modelled from the spec and README: the channels of a deployment run. The
stdout summary carries the credentials block; the CloudWatch log lines and
the CloudFormation outputs are built without the key. -/
def deploymentReport (apiKey apiEndpoint : String) : Channels :=
  { stdoutLines := ["Deployment complete"] ++ credentialsSection apiKey apiKeyParamPath,
    logLines := ["Creating CloudFormation stack", "Stack deployment complete"],
    infraOutputs := [("ApiEndpoint", apiEndpoint)] }

theorem containsSub_append_self : ∀ (pre n : List Char), containsSub n (pre ++ n) = true := by
  intro pre
  induction pre with
  | nil =>
    intro n
    cases n with
    | nil => rfl
    | cons h t =>
      simp only [List.nil_append, containsSub]
      have : (h :: t).isPrefixOf (h :: t) = true := by
        simp [ List.isPrefixOf_iff_prefix]
      rw [this]
      rfl
  | cons a pre2 ih =>
    intro n
    show (n.isPrefixOf (a :: (pre2 ++ n)) || containsSub n (pre2 ++ n)) = true
    rw [ih n, Bool.or_true]

/-- Counterexample to claim C4: at a concrete credential value, the standard
output of the deployment run contains the credential itself, not only its
storage location and retrieval instruction. -/
theorem claim_C4_counterexample :
    appears "AbC123XyZ789SecureKey32Characters"
      (deploymentReport "AbC123XyZ789SecureKey32Characters"
        "https://abc.execute-api.us-east-1.amazonaws.com/prod").stdoutLines = true := by
  decide

/-- Claim C4 as amended: the credential value never reaches the log lines or
the infrastructure-output fields — both are independent of the credential —
while standard output displays it once in the final credentials block
together with its storage location and a retrieval instruction. -/
theorem claim_C4_amended_credential_channels (k1 k2 endpoint : String) :
    (deploymentReport k1 endpoint).logLines = (deploymentReport k2 endpoint).logLines ∧
    (deploymentReport k1 endpoint).infraOutputs =
      (deploymentReport k2 endpoint).infraOutputs ∧
    appears k1 (deploymentReport k1 endpoint).stdoutLines = true := by
  refine ⟨rfl, rfl, ?_⟩
  have hline : containsSub k1.data ("API Key: " ++ k1).data = true := by
    rw [String.data_append]
    exact containsSub_append_self _ _
  apply List.any_eq_true.mpr
  refine ⟨"API Key: " ++ k1, ?_, hline⟩
  simp [deploymentReport, credentialsSection]

end Reporter

end CognitoLogin
